import Mathlib

/-!
Shallow embedding of `xcube_sh/geodb.py` (local and remote GeoDB services).

Conventions used throughout:
* Python `None`-able strings become `Option String`; Python truthiness of a
  string (`if not query`) is `none` or the empty string being falsy.
* Python exceptions become `Except String` results carrying the message.
* The database connection, the expression compiler (`compile`) and the
  expression evaluator (`eval`) are external collaborators; they are passed
  in as explicit parameters (oracles) where the code calls them, and the
  control flow around them is translated from the source.
* Numeric bounding-box coordinates and SRIDs are modelled as `Int`; Python's
  f-string interpolation of an int is `Int` `toString`.
-/

/-- Scalar Python values appearing as feature property values in the code
paths under verification (`str`, `int`, `bool`, `None`).  Python floats are
not exercised by any claim and are left out of the scalar model. -/
inductive PyScalar where
  | pStr (s : String)
  | pInt (n : Int)
  | pBool (b : Bool)
  | pNone
deriving DecidableEq, Repr

/-- JSON values, used for the `geometry` member of a feature, which the code
only ever passes through `json.dumps`. -/
inductive PyJson where
  | jNull
  | jBool (b : Bool)
  | jInt (n : Int)
  | jStr (s : String)
  | jArr (items : List PyJson)
  | jObj (entries : List (String × PyJson))
deriving Repr

/-- Python `str()` of a scalar, as interpolated by an f-string or `%s`. -/
def pyStr : PyScalar → String
  | .pStr s => s
  | .pInt n => toString n
  | .pBool true => "True"
  | .pBool false => "False"
  | .pNone => "None"

/-- Python truthiness of a scalar value. -/
def pyTruthy : PyScalar → Bool
  | .pStr s => !s.isEmpty
  | .pInt n => n != 0
  | .pBool b => b
  | .pNone => false

/-- Does `needle` occur as a prefix of `hay`?  Helper for substring search. -/
def charsPrefix : List Char → List Char → Bool
  | [], _ => true
  | _ :: _, [] => false
  | a :: as, b :: bs => a == b && charsPrefix as bs

/-- Does `needle` occur anywhere inside `hay`? -/
def charsSub (needle : List Char) : List Char → Bool
  | [] => needle.isEmpty
  | b :: bs => charsPrefix needle (b :: bs) || charsSub needle bs

/-- Python's substring containment test `needle in hay` on strings. -/
def strHasSub (needle hay : String) : Bool :=
  charsSub needle.toList hay.toList

/-- Python `s.lower()` on the ASCII identifiers the code lowercases,
modelled character by character. -/
def strToLower (s : String) : String :=
  String.mk (s.toList.map Char.toLower)

/-- Python `s[0]` on a string: its first character as a one-character
string, or `IndexError` on the empty string. -/
def pyStrIndex0 (s : String) : Except String String :=
  match s.toList with
  | [] => .error "IndexError: string index out of range"
  | c :: _ => .ok (String.mk [c])

/-- Python truthiness of an optional string (`None` and `""` are falsy). -/
def truthy : Option String → Bool
  | none => false
  | some s => !s.isEmpty

/-- Python `str()` interpolation of an optional string (f-string renders
`None` as the text "None"; the code only interpolates truthy values). -/
def getS : Option String → String
  | none => "None"
  | some s => s

/-- Python dict lookup `d[k]` on an insertion-ordered association list with
unique keys, returning `none` where Python would raise `KeyError`. -/
def dictGet (d : List (String × PyScalar)) (k : String) : Option PyScalar :=
  match d with
  | [] => none
  | (k2, v) :: rest => if k2 = k then some v else dictGet rest k

/-- Python `d[k] = v`: replace in place when the key exists, else append. -/
def dictSet (d : List (String × PyScalar)) (k : String) (v : PyScalar) :
    List (String × PyScalar) :=
  if d.any (fun kv => kv.1 = k) then
    d.map (fun kv => if kv.1 = k then (k, v) else kv)
  else d ++ [(k, v)]

/-- Python `d.update(u)`, folding `dictSet` over the updates in order. -/
def dictUpdate (d : List (String × PyScalar)) :
    List (String × PyScalar) → List (String × PyScalar)
  | [] => d
  | (k, v) :: rest => dictUpdate (dictSet d k v) rest

/-- GeoJSON-style feature: optional `id`, a `properties` dict of scalars and
a `geometry` JSON object (`Feature = Dict[str, Any]` in the source). -/
structure PyFeature where
  id : Option PyScalar := none
  properties : List (String × PyScalar)
  geometry : PyJson := PyJson.jNull
deriving Repr

/-- Bounding box `[minx, miny, maxx, maxy]` as unpacked by `_alter_query`
from `bbox[0] .. bbox[3]`. -/
structure BBoxV where
  minx : Int
  miny : Int
  maxx : Int
  maxy : Int
deriving DecidableEq, Repr

mutual

/-- Python `json.dumps` with its default separators (`", "` and `": "`),
restricted to values whose strings need no character escaping (the only
shapes the claims exercise). -/
def jsonDumps : PyJson → String
  | .jNull => "null"
  | .jBool true => "true"
  | .jBool false => "false"
  | .jInt n => toString n
  | .jStr s => "\"" ++ s ++ "\""
  | .jArr items => "[" ++ jsonDumpsArr items ++ "]"
  | .jObj entries => "\x7b" ++ jsonDumpsObj entries ++ "\x7d"

/-- Comma-separated dump of a JSON array body. -/
def jsonDumpsArr : List PyJson → String
  | [] => ""
  | [x] => jsonDumps x
  | x :: xs => jsonDumps x ++ ", " ++ jsonDumpsArr xs

/-- Comma-separated dump of a JSON object body. -/
def jsonDumpsObj : List (String × PyJson) → String
  | [] => ""
  | [(k, v)] => "\"" ++ k ++ "\": " ++ jsonDumps v
  | (k, v) :: xs => "\"" ++ k ++ "\": " ++ jsonDumps v ++ ", " ++ jsonDumpsObj xs

end

/-- View of a scalar property value as a JSON value, for `json.dumps` of the
`properties` dict. -/
def scalarToJson : PyScalar → PyJson
  | .pStr s => .jStr s
  | .pInt n => .jInt n
  | .pBool b => .jBool b
  | .pNone => .jNull

/-- Python `json.dumps(properties)` on a properties dict. -/
def propsDumps (props : List (String × PyScalar)) : String :=
  jsonDumps (PyJson.jObj (props.map (fun kv => (kv.1, scalarToJson kv.2))))

namespace RemoteGeoPostgreSQLService

/-- Embeds the `srid_str` assignment of `_alter_query` (geodb.py:271-273):
empty unless `srid is not None`, in which case `f'SRID={srid};'`. -/
def srid_str : Option Int → String
  | none => ""
  | some s => "SRID=" ++ toString s ++ ";"

/-- Embeds the `bbox` f-string of `_alter_query` (geodb.py:275-276): the WKT
polygon literal built from the four corners, preceded by a space and the
optional SRID tag and followed by a `::geometry` cast. -/
def wkt (b : BBoxV) (srid : Option Int) : String :=
  " " ++ srid_str srid ++ "POLYGON((" ++
    toString b.minx ++ " " ++ toString b.miny ++ "," ++
    toString b.minx ++ " " ++ toString b.maxy ++ "," ++
    toString b.maxx ++ " " ++ toString b.maxy ++ "," ++
    toString b.maxx ++ " " ++ toString b.miny ++ "," ++
    toString b.minx ++ " " ++ toString b.miny ++ "))" ++ "::geometry"

/-- Embeds the `bbox_query` computation of `_alter_query` (geodb.py:264-282):
`none` when no bounding box is given, otherwise the `ST_Contains` /
`ST_Within` predicate over the WKT literal, or a `ValueError` for any other
`bbox_mode`. -/
def bbox_query_of (bbox : Option BBoxV) (bbox_mode : String) (srid : Option Int) :
    Except String (Option String) :=
  match bbox with
  | none => .ok none
  | some b =>
    let bboxStr := wkt b srid
    if bbox_mode = "contains" then
      .ok (some (" ST_Contains(\x27" ++ bboxStr ++ "\x27, geometry)"))
    else if bbox_mode = "within" then
      .ok (some (" ST_Within(\x27" ++ bboxStr ++ "\x27, geometry)"))
    else
      .error ("bbox_mode " ++ bbox_mode ++ " unknown")

/-- Embeds `RemoteGeoPostgreSQLService._alter_query` (geodb.py:263-302): the
query/bbox combination table.  `ValueError` raises become `Except.error`. -/
def alter_query (query : Option String) (bbox : Option BBoxV)
    (bbox_mode : String) (fmt : String) (srid : Option Int) :
    Except String String :=
  match bbox_query_of bbox bbox_mode srid with
  | .error e => .error e
  | .ok bbox_query =>
    if !truthy query && !truthy bbox_query then
      .ok "TRUE"
    else if truthy query && !truthy bbox_query then
      if fmt = "geojson" then .ok ("properties->>" ++ getS query)
      else if fmt = "geopandas" then .ok (getS query)
      else .error ("format " ++ fmt ++ " not known")
    else if !truthy query && truthy bbox_query then
      .ok (getS bbox_query)
    else
      if fmt = "geojson" then
        .ok ("properties->>" ++ getS query ++ " and " ++ getS bbox_query)
      else if fmt = "geopandas" then
        .ok (getS query ++ " and " ++ getS bbox_query)
      else .error ("format " ++ fmt ++ " not known")

/-- Python `str.split(sep)` for a single-character separator, on the
character list of the string. -/
def splitOnChar (sep : Char) : List Char → List (List Char)
  | [] => [[]]
  | c :: rest =>
    if c = sep then [] :: splitOnChar sep rest
    else
      match splitOnChar sep rest with
      | [] => [[c]]
      | g :: gs => (c :: g) :: gs

/-- Python `s.split(sep)` on strings, for a single-character separator (the
code only splits on `':'` and `'.'`). -/
def strSplit (sep : Char) (s : String) : List String :=
  (splitOnChar sep s.toList).map (fun cs => String.mk cs)

/-- Embeds `RemoteGeoPostgreSQLService._make_column`'s precision suffix
computation (geodb.py:436-442): `typ.split(':')`, and when that yields two
parts, the second part split on `'.'`; two parts there give
`(precision,scale)`, anything else the empty suffix. -/
def float_prec (typ : String) : String :=
  match strSplit ':' typ with
  | [_, rest] =>
    match strSplit '.' rest with
    | [p, s] => "(" ++ p ++ "," ++ s ++ ")"
    | _ => ""
  | _ => ""

/-- Embeds `RemoteGeoPostgreSQLService._make_column` (geodb.py:431-447),
the column-type mapper.  The `NotImplementedError` raise becomes
`Except.error`. -/
def make_column (name typ : String) : Except String String :=
  if typ = "str" then
    .ok (name ++ " character varying(256) COLLATE pg_catalog.\"default\"")
  else if strHasSub "int" typ then
    .ok (name ++ " integer")
  else if strHasSub "float" typ then
    .ok (name ++ " numeric" ++ float_prec typ)
  else
    .error ("Column type " ++ typ ++ " not implemented")

/-- Result of `RemoteGeoPostgreSQLService.query` (geodb.py:396-421): a single
row (`fetchone`), a list of rows (`fetchall`), or the `True` success flag. -/
inductive PgResult where
  | row (r : List String)
  | rows (rs : List (List String))
  | success
deriving DecidableEq, Repr

/-- Embeds `RemoteGeoPostgreSQLService.query` (geodb.py:396-421).  The cursor
is the external database collaborator; `fetched` is the row list the executed
statement produced (so `cur.rowcount = fetched.length`).  The returned `Bool`
records whether `self._conn.commit()` was called. -/
def query (sql : String) (fetched : List (List String)) : PgResult × Bool :=
  if strHasSub "SELECT" sql then
    match fetched with
    | [r] => (PgResult.row r, false)
    | rs => (PgResult.rows rs, false)
  else
    (PgResult.success, true)

/-- Python `f"{v}"` of a property value in `add_features`' value list
(geodb.py:366-374): numeric and boolean values unquoted (`str(True)` is
"True"), `None` becomes `null`, everything else single-quoted `str(v)`. -/
def sqlValue : PyScalar → String
  | .pInt n => toString n
  | .pBool true => "True"
  | .pBool false => "False"
  | .pNone => "null"
  | .pStr s => "\x27" ++ s ++ "\x27"

/-- The INSERT statement template of `add_features` (geodb.py:381-391) after
`%`-substitution, reproduced verbatim (including the `properties` JSON blob
doubling as the first column name and the stray parenthesis before the
closing quote of `ST_GeomFromGeoJSON`). -/
def insert_sql (collection_name properties name columns values geometry : String) :
    String :=
  "INSERT INTO " ++ collection_name ++ "(" ++ properties ++ ", name, " ++
    columns ++ ", geometry) VALUES(\x27" ++ properties ++ "\x27, \x27" ++
    name ++ "\x27, " ++ values ++ ", ST_GeomFromGeoJSON(\x27" ++ geometry ++
    ")\x27)) "

/-- Connection state threaded through statement execution: `executed` is the
sequence of SQL texts passed to `cur.execute`, in order; `committed` is the
prefix of those made durable by `self._conn.commit()` (a commit commits the
whole transaction, i.e. every statement executed so far). -/
structure ConnState where
  executed : List String
  committed : List String
deriving DecidableEq, Repr

/-- Embeds `RemoteGeoPostgreSQLService.query` (geodb.py:396-421) as invoked
by `add_features` on a statement the database executes without producing a
result set (an INSERT): `cur.execute(sql)` appends the text to `executed`;
then, when the text happens to contain the substring "SELECT", the dispatch
takes the SELECT branch — `cur.rowcount` is 1 (the affected-row count), so
`cur.fetchone()` is called and raises `ProgrammingError` (psycopg2: no
results to fetch) with nothing committed; otherwise `self._conn.commit()`
runs and every executed statement becomes durable. -/
def query_run (sql : String) (conn : ConnState) : Except String Unit × ConnState :=
  let conn1 : ConnState := { conn with executed := conn.executed ++ [sql] }
  if strHasSub "SELECT" sql then
    (.error "ProgrammingError: no results to fetch", conn1)
  else
    (.ok (), { conn1 with committed := conn1.executed })

/-- The INSERT text `add_features` builds for feature `f` whose `S_NAME`
property value is `nv` (geodb.py:359-391): the column list from the lowered
property keys, the value list from `sqlValue`, the JSON properties blob, the
interpolated name and the dumped geometry, substituted into the template. -/
def insert_text (collection_name : String) (f : PyFeature) (nv : PyScalar) :
    String :=
  insert_sql collection_name (propsDumps f.properties) (pyStr nv)
    (String.intercalate ","
      (f.properties.map (fun kv => "\"" ++ strToLower kv.1 ++ "\"")))
    (String.intercalate "," (f.properties.map (fun kv => sqlValue kv.2)))
    (jsonDumps f.geometry)

/-- A feature whose INSERT goes through cleanly: it carries the `S_NAME`
property, and the built statement text does not contain the substring
"SELECT" (so `query`'s dispatch reaches the commit branch). -/
def insert_ok (collection_name : String) (f : PyFeature) : Prop :=
  ∃ nv, dictGet f.properties "S_NAME" = some nv ∧
    strHasSub "SELECT" (insert_text collection_name f nv) = false

/-- Embeds `RemoteGeoPostgreSQLService.add_features` (geodb.py:358-394).
For each feature in order: the column and value lists are built (side-effect
free, factored into `insert_text` together with the template substitution),
the required `S_NAME` property is read — a missing key raises `KeyError`
during the substitution (geodb.py:388), before `self.query` is reached —
and the INSERT text is passed to `self.query`, whose dispatch either commits
it or raises at fetch; the final connection state is returned alongside in
every case. -/
def add_features (collection_name : String) (features : List PyFeature)
    (conn : ConnState) : Except String String × ConnState :=
  match features with
  | [] => (.ok "Features Added", conn)
  | f :: rest =>
    match dictGet f.properties "S_NAME" with
    | none => (.error "KeyError: \x27S_NAME\x27", conn)
    | some nameVal =>
      match query_run (insert_text collection_name f nameVal) conn with
      | (.error e, conn2) => (.error e, conn2)
      | (.ok _, conn2) => add_features collection_name rest conn2

/-- Embeds `RemoteGeoPostgreSQLService.add_feature` (geodb.py:354-356):
delegates to `add_features` on a one-element list. -/
def add_feature (collection_name : String) (f : PyFeature)
    (conn : ConnState) : Except String String × ConnState :=
  match add_features collection_name [f] conn with
  | (.error e, conn2) => (.error e, conn2)
  | (.ok _, conn2) => (.ok "Feature Added", conn2)

/-- The database collaborator, modelled by its observable table list: the
tables (all carrying a `properties` column, per `_GET_TABLES_SQL`) that the
introspection statements report and that CREATE/DROP TABLE statements edit. -/
structure PgDatabase where
  tables : List String
deriving DecidableEq, Repr

/-- Embeds `RemoteGeoPostgreSQLService._get_collections` (geodb.py:423-425):
runs `_GET_TABLES_SQL` (a SELECT, fetched without commit) producing one
one-element row `(table_name,)` per table, then evaluates
`[r[0] for r in result]`.  When exactly one table matches, `query`'s
`rowcount == 1` branch returns that single tuple itself, so the
comprehension iterates the tuple's one string element and `r[0]` is the
first character of the table name (an `IndexError` on an empty name);
otherwise it iterates the row list and `r[0]` is the table name. -/
def _get_collections (db : PgDatabase) : Except String (List String) :=
  match db.tables with
  | [t] => (pyStrIndex0 t).map (fun c => [c])
  | ts => .ok ts

/-- Instance state of `RemoteGeoPostgreSQLService`: the connection and the
`_collections` attribute filled in `__init__` (geodb.py:242). -/
structure ServiceState where
  conn : PgDatabase
  _collections : List String
deriving DecidableEq, Repr

/-- Embeds the tail of `RemoteGeoPostgreSQLService.__init__`
(geodb.py:237-243): adopt the given connection and cache
`self._collections = self._get_collections()` once (propagating the
`IndexError` of the degenerate single-empty-name case). -/
def mkService (db : PgDatabase) : Except String ServiceState :=
  match _get_collections db with
  | .error e => .error e
  | .ok cols => .ok { conn := db, _collections := cols }

/-- Embeds `RemoteGeoPostgreSQLService._collection_exists`
(geodb.py:427-429): runs `_TABLE_EXISTS_SQL` against the live database. -/
def _collection_exists (svc : ServiceState) (collection_name : String) : Bool :=
  svc.conn.tables.contains collection_name

/-- Embeds `RemoteGeoPostgreSQLService.new_collection` (geodb.py:334-345):
duplicate-existence check (live), column building through `make_column`
(raising on unsupported types), then execution of the CREATE TABLE statement,
modelled by its effect of adding the table; `self._collections` is not
touched. -/
def new_collection (svc : ServiceState) (collection_name : String)
    (schema : List (String × String)) : Except String (String × ServiceState) :=
  if _collection_exists svc collection_name then
    .error ("Collection " ++ collection_name ++ " exists")
  else
    match schema.mapM (fun kv => make_column kv.1 kv.2) with
    | .error e => .error e
    | .ok _cols =>
      .ok ("Collection created",
        { conn := { tables := svc.conn.tables ++ [collection_name] },
          _collections := svc._collections })

/-- Embeds `RemoteGeoPostgreSQLService.drop_collection` (geodb.py:347-352):
existence check (live), then execution of the DROP TABLE statement, modelled
by its effect of removing the table; `self._collections` is not touched. -/
def drop_collection (svc : ServiceState) (collection_name : String) :
    Except String ServiceState :=
  if !_collection_exists svc collection_name then
    .error ("Collection " ++ collection_name ++ " does not exist")
  else
    .ok { conn := { tables := svc.conn.tables.erase collection_name },
          _collections := svc._collections }

end RemoteGeoPostgreSQLService

namespace LocalGeoDBService

/-- Python truthiness of the `bbox` argument of the local `find_features`
(`None` and the empty sequence are falsy). -/
def bboxTruthy : Option (List Int) → Bool
  | none => false
  | some l => !l.isEmpty

/-- Embeds the `_locals` construction of `LocalGeoDBService.find_features`
(geodb.py:127-128): `dict(id=feature.get('id')) if feature.get('id') else
\x7b\x7d`, then `update` with the feature's properties. -/
def featureLocals (f : PyFeature) : List (String × PyScalar) :=
  let base : List (String × PyScalar) :=
    match f.id with
    | some i => if pyTruthy i then [("id", i)] else []
    | none => []
  dictUpdate base f.properties

/-- Truthiness of an evaluation outcome under the bare `except Exception`
of geodb.py:126-131: an error counts as `False`. -/
def exceptFalse : Except String Bool → Bool
  | .error _ => false
  | .ok b => b

/-- Embeds the feature loop of `LocalGeoDBService.find_features`
(geodb.py:124-136): evaluate the compiled query on each feature's locals
(failures count as non-matches), append matches, and break as soon as
`len(result_set) >= max_records`. -/
def findLoop (ev : List (String × PyScalar) → Except String Bool)
    (max_records : Int) : List PyFeature → List PyFeature → List PyFeature
  | [], acc => acc
  | f :: rest, acc =>
    let result := exceptFalse (ev (featureLocals f))
    if result then
      let acc2 := acc ++ [f]
      if (acc2.length : Int) ≥ max_records then acc2
      else findLoop ev max_records rest acc2
    else findLoop ev max_records rest acc

/-- Python `compile(query, 'query', 'eval')` (geodb.py:120).  `compileF` is
the CPython compiler on string sources (an external collaborator returning
the compiled code, modelled by its source text, or a `SyntaxError`); passing
`None` raises `TypeError` before the compiler proper runs. -/
def pyCompile (compileF : String → Except String String) :
    Option String → Except String String
  | none => .error "TypeError: compile() arg 1 must be a string, bytes or code object"
  | some s => compileF s

/-- Embeds `LocalGeoDBService.find_features` (geodb.py:113-136): reject a
truthy bbox, compile the query once, then run the feature loop.  `evalF` is
the CPython evaluator (external), given the compiled query and the locals
dict and returning the truthiness of the evaluated expression or the raised
exception. -/
def find_features (compileF : String → Except String String)
    (evalF : String → List (String × PyScalar) → Except String Bool)
    (query : Option String) (bbox : Option (List Int))
    (collection : List PyFeature) (max_records : Int) :
    Except String (List PyFeature) :=
  if bboxTruthy bbox then
    .error "NotImplementedError: bbox feature not implemented for driver local"
  else
    match pyCompile compileF query with
    | .error e => .error e
    | .ok cq => .ok (findLoop (evalF cq) max_records collection [])

end LocalGeoDBService

/-- Sample feature with id 1 and an `S_NAME` property, for concrete runs. -/
def fA : PyFeature :=
  { id := some (.pInt 1), properties := [("S_NAME", .pStr "a"), ("height", .pInt 3)] }

/-- Sample feature with id 2 and an `S_NAME` property, for concrete runs. -/
def fB : PyFeature :=
  { id := some (.pInt 2), properties := [("S_NAME", .pStr "b"), ("height", .pInt 4)] }

/-- Sample feature with id 3 and an `S_NAME` property, for concrete runs. -/
def fC : PyFeature :=
  { id := some (.pInt 3), properties := [("S_NAME", .pStr "c"), ("height", .pInt 5)] }

/-- Sample feature whose properties lack the required `S_NAME` key. -/
def fNoName : PyFeature := { properties := [("height", .pInt 7)] }

/-- Sample feature with `S_NAME` whose property value "SELECT 1" puts the
substring "SELECT" into the interpolated INSERT text. -/
def fSel : PyFeature :=
  { properties := [("S_NAME", .pStr "x"), ("note", .pStr "SELECT 1")] }

/-- Compiler oracle for well-formed sources: compilation succeeds and the
compiled code is identified with its source text. -/
def compileId : String → Except String String := fun s => .ok s

/-- Evaluator oracle for a predicate that is true on every feature. -/
def evalTrue : String → List (String × PyScalar) → Except String Bool :=
  fun _ _ => .ok true

/-- Evaluator oracle for an expression whose evaluation always raises
(e.g. a `NameError` for a variable missing from the locals). -/
def evalErr : String → List (String × PyScalar) → Except String Bool :=
  fun _ _ => .error "NameError: name \x27x\x27 is not defined"

/-! ## Helper lemmas -/

/-- A string with a nonempty prefix is nonempty. -/
theorem strAppendNeEmpty (a t : String) (h : a.length ≠ 0) : (a ++ t) ≠ "" := by
  intro he
  have h2 := congrArg String.length he
  simp at h2
  exact absurd h2.1 h

/-- A nonempty optional string is Python-truthy. -/
theorem truthySomeOfNe (q : String) (h : q ≠ "") : truthy (some q) = true := by
  cases he : q.isEmpty
  · simp [truthy, he]
  · exact absurd ((String.isEmpty_iff q).1 he) h

/-- An optional string with a nonempty prefix is Python-truthy. -/
theorem truthySomeAppend (a t : String) (h : a.length ≠ 0) :
    truthy (some (a ++ t)) = true :=
  truthySomeOfNe (a ++ t) (strAppendNeEmpty a t h)

namespace RemoteGeoPostgreSQLService

/-- Unsupported-mode case of the bounding-box predicate builder. -/
theorem bbox_query_of_bad_mode (b : BBoxV) (srid : Option Int) (mode : String)
    (h1 : mode ≠ "contains") (h2 : mode ≠ "within") :
    bbox_query_of (some b) mode srid =
      .error ("bbox_mode " ++ mode ++ " unknown") := by
  simp [bbox_query_of, h1, h2]

/-- Characterization of a successful bounding-box predicate: the mode is one
of the two supported ones and the produced predicate starts with the
corresponding spatial function over the WKT literal. -/
theorem bbox_query_of_ok (b : BBoxV) (srid : Option Int) (mode : String)
    (bq : String) (h : bbox_query_of (some b) mode srid = .ok (some bq)) :
    bq = " ST_Contains(\x27" ++ wkt b srid ++ "\x27, geometry)" ∨
    bq = " ST_Within(\x27" ++ wkt b srid ++ "\x27, geometry)" := by
  by_cases h1 : mode = "contains"
  · subst h1
    simp [bbox_query_of] at h
    left
    exact h.symm
  · by_cases h2 : mode = "within"
    · subst h2
      simp [bbox_query_of] at h
      right
      exact h.symm
    · rw [bbox_query_of_bad_mode b srid mode h1 h2] at h
      exact absurd h (by simp)

/-- A successfully built bounding-box predicate is a nonempty string, hence
Python-truthy. -/
theorem bbox_query_of_ok_truthy (b : BBoxV) (srid : Option Int) (mode : String)
    (bq : String) (h : bbox_query_of (some b) mode srid = .ok (some bq)) :
    truthy (some bq) = true := by
  rcases bbox_query_of_ok b srid mode bq h with h2 | h2 <;>
    · rw [h2, String.append_assoc]
      exact truthySomeAppend _ _ (by decide)

/-- Query-only case of the combination table, for a truthy query: the format
dispatch of geodb.py:286-292. -/
theorem alter_query_query_only (q : String) (hq : q ≠ "") (bbox_mode fmt : String)
    (srid : Option Int) :
    alter_query (some q) none bbox_mode fmt srid =
      (if fmt = "geojson" then .ok ("properties->>" ++ q)
       else if fmt = "geopandas" then .ok q
       else .error ("format " ++ fmt ++ " not known")) := by
  have ht := truthySomeOfNe q hq
  have hn : truthy (none : Option String) = false := rfl
  simp [alter_query, bbox_query_of, ht, hn, getS]

/-- Both-present case of the combination table, for a truthy query and a
successfully built bounding-box predicate: the format dispatch of
geodb.py:295-301. -/
theorem alter_query_both (q : String) (hq : q ≠ "") (b : BBoxV)
    (bbox_mode fmt : String) (srid : Option Int) (bq : String)
    (hb : bbox_query_of (some b) bbox_mode srid = .ok (some bq)) :
    alter_query (some q) (some b) bbox_mode fmt srid =
      (if fmt = "geojson" then .ok ("properties->>" ++ q ++ " and " ++ bq)
       else if fmt = "geopandas" then .ok (q ++ " and " ++ bq)
       else .error ("format " ++ fmt ++ " not known")) := by
  have ht := truthySomeOfNe q hq
  have htb := bbox_query_of_ok_truthy b srid bbox_mode bq hb
  unfold alter_query
  rw [hb]
  simp [ht, htb, getS, String.append_assoc]

/-- Bbox-only case of the combination table (geodb.py:293-294): the
bounding-box predicate is returned alone. -/
theorem alter_query_bbox_only (b : BBoxV) (bbox_mode fmt : String)
    (srid : Option Int) (bq : String)
    (hb : bbox_query_of (some b) bbox_mode srid = .ok (some bq)) :
    alter_query none (some b) bbox_mode fmt srid = .ok bq := by
  have htb := bbox_query_of_ok_truthy b srid bbox_mode bq hb
  have hn : truthy (none : Option String) = false := rfl
  unfold alter_query
  rw [hb]
  simp [htb, hn, getS]

/-- Descriptor equal to "str": bounded character column (geodb.py:432-433). -/
theorem make_column_str (name : String) :
    make_column name "str" =
      .ok (name ++ " character varying(256) COLLATE pg_catalog.\"default\"") := by
  simp [make_column]

/-- Descriptor containing "int": integer column (geodb.py:434-435). -/
theorem make_column_int (name typ : String) (h : strHasSub "int" typ = true) :
    make_column name typ = .ok (name ++ " integer") := by
  have hs : typ ≠ "str" := by
    rintro rfl
    exact absurd h (by decide)
  simp [make_column, hs, h]

/-- Descriptor containing "float" but not "int": numeric column with the
optional precision suffix (geodb.py:436-443). -/
theorem make_column_float (name typ : String) (hf : strHasSub "float" typ = true)
    (hi : strHasSub "int" typ = false) :
    make_column name typ = .ok (name ++ " numeric" ++ float_prec typ) := by
  have hs : typ ≠ "str" := by
    rintro rfl
    exact absurd hf (by decide)
  simp [make_column, hs, hi, hf]

/-- Any other descriptor: `NotImplementedError` (geodb.py:444-445). -/
theorem make_column_other (name typ : String) (hs : typ ≠ "str")
    (hi : strHasSub "int" typ = false) (hf : strHasSub "float" typ = false) :
    make_column name typ = .error ("Column type " ++ typ ++ " not implemented") := by
  simp [make_column, hs, hi, hf]

/-- One committing step of `add_features`: a feature with an `S_NAME` value
whose INSERT text lacks "SELECT" is executed and committed (together with
anything executed earlier on the connection), and the loop continues. -/
theorem add_features_cons_ok (coll : String) (f : PyFeature)
    (tail : List PyFeature) (conn : ConnState) (nv : PyScalar)
    (hnv : dictGet f.properties "S_NAME" = some nv)
    (hsel : strHasSub "SELECT" (insert_text coll f nv) = false) :
    add_features coll (f :: tail) conn =
      add_features coll tail
        ⟨conn.executed ++ [insert_text coll f nv],
         conn.executed ++ [insert_text coll f nv]⟩ := by
  have hq : query_run (insert_text coll f nv) conn =
      (.ok (), ⟨conn.executed ++ [insert_text coll f nv],
                conn.executed ++ [insert_text coll f nv]⟩) := by
    unfold query_run
    rw [if_neg (by simp [hsel])]
  simp only [add_features, hnv, hq]

/-- Key-error step of `add_features`: a feature lacking `S_NAME` raises with
the connection state untouched. -/
theorem add_features_cons_keyerr (coll : String) (f : PyFeature)
    (tail : List PyFeature) (conn : ConnState)
    (hnone : dictGet f.properties "S_NAME" = none) :
    add_features coll (f :: tail) conn =
      (.error "KeyError: \x27S_NAME\x27", conn) := by
  simp only [add_features, hnone]

/-- Fetch-error step of `add_features`: a feature whose INSERT text contains
"SELECT" is executed but `query` raises at fetch before committing, so the
statement lands in `executed` while `committed` is unchanged. -/
theorem add_features_cons_selerr (coll : String) (f : PyFeature)
    (tail : List PyFeature) (conn : ConnState) (nv : PyScalar)
    (hnv : dictGet f.properties "S_NAME" = some nv)
    (hsel : strHasSub "SELECT" (insert_text coll f nv) = true) :
    add_features coll (f :: tail) conn =
      (.error "ProgrammingError: no results to fetch",
       ⟨conn.executed ++ [insert_text coll f nv], conn.committed⟩) := by
  have hq : query_run (insert_text coll f nv) conn =
      (.error "ProgrammingError: no results to fetch",
       ⟨conn.executed ++ [insert_text coll f nv], conn.committed⟩) := by
    unfold query_run
    rw [if_pos hsel]
  simp only [add_features, hnv, hq]

/-- Successful runs of `add_features`: when every feature carries `S_NAME`
and none of the built INSERT texts contains "SELECT", the call reports
success, executes exactly one INSERT per feature, and (starting from a
connection with nothing pending) leaves every executed statement
committed. -/
theorem add_features_all_ok (coll : String) (fs : List PyFeature) :
    ∀ conn : ConnState,
    (∀ f ∈ fs, insert_ok coll f) →
    (add_features coll fs conn).1 = .ok "Features Added" ∧
    (add_features coll fs conn).2.executed.length =
      conn.executed.length + fs.length ∧
    (conn.committed = conn.executed →
      (add_features coll fs conn).2.committed =
        (add_features coll fs conn).2.executed) := by
  induction fs with
  | nil =>
    intro conn _
    exact ⟨rfl, by simp [add_features], fun h => h⟩
  | cons f rest ih =>
    intro conn hall
    obtain ⟨nv, hnv, hsel⟩ := hall f (by simp)
    have hrest : ∀ g ∈ rest, insert_ok coll g :=
      fun g hg => hall g (by simp [hg])
    rw [add_features_cons_ok coll f rest conn nv hnv hsel]
    obtain ⟨h1, h2, h3⟩ := ih _ hrest
    refine ⟨h1, ?_, fun _ => h3 rfl⟩
    rw [h2]
    simp
    omega

/-- Runs of `add_features` that hit a nameless feature: with a prefix of
clean features followed by one lacking `S_NAME`, the call raises `KeyError`
and the connection state is exactly the one left by the prefix — the earlier
INSERTs stay executed and committed, the offending and later features are
never inserted. -/
theorem add_features_keyerr_at (coll : String) (good : List PyFeature)
    (bad : PyFeature) (rest : List PyFeature) :
    ∀ conn : ConnState,
    (∀ f ∈ good, insert_ok coll f) →
    dictGet bad.properties "S_NAME" = none →
    add_features coll (good ++ bad :: rest) conn =
      (.error "KeyError: \x27S_NAME\x27", (add_features coll good conn).2) := by
  induction good with
  | nil =>
    intro conn _ hbad
    simp only [List.nil_append]
    rw [add_features_cons_keyerr coll bad rest conn hbad]
    rfl
  | cons g gs ih =>
    intro conn hall hbad
    obtain ⟨nv, hnv, hsel⟩ := hall g (by simp)
    have hgs : ∀ f ∈ gs, insert_ok coll f :=
      fun f hf => hall f (by simp [hf])
    rw [List.cons_append,
      add_features_cons_ok coll g (gs ++ bad :: rest) conn nv hnv hsel,
      add_features_cons_ok coll g gs conn nv hnv hsel]
    exact ih _ hgs hbad

/-- Runs of `add_features` that hit a "SELECT"-containing INSERT: with a
prefix of clean features followed by one whose built text contains the
substring, the call raises the fetch error with that statement executed but
uncommitted on top of the prefix's state, and inserts nothing further. -/
theorem add_features_selerr_at (coll : String) (good : List PyFeature)
    (fsel : PyFeature) (rest : List PyFeature) (nv : PyScalar) :
    ∀ conn : ConnState,
    (∀ f ∈ good, insert_ok coll f) →
    dictGet fsel.properties "S_NAME" = some nv →
    strHasSub "SELECT" (insert_text coll fsel nv) = true →
    add_features coll (good ++ fsel :: rest) conn =
      (.error "ProgrammingError: no results to fetch",
       ⟨(add_features coll good conn).2.executed ++ [insert_text coll fsel nv],
        (add_features coll good conn).2.committed⟩) := by
  induction good with
  | nil =>
    intro conn _ hnv hsel
    simp only [List.nil_append]
    rw [add_features_cons_selerr coll fsel rest conn nv hnv hsel]
    rfl
  | cons g gs ih =>
    intro conn hall hnv hsel
    obtain ⟨nvg, hnvg, hselg⟩ := hall g (by simp)
    have hgs : ∀ f ∈ gs, insert_ok coll f :=
      fun f hf => hall f (by simp [hf])
    rw [List.cons_append,
      add_features_cons_ok coll g (gs ++ fsel :: rest) conn nvg hnvg hselg,
      add_features_cons_ok coll g gs conn nvg hnvg hselg]
    exact ih _ hgs hnv hsel

/-- Shape of a successful construction: the cache equals what
`_get_collections` reported for the adopted connection. -/
theorem mkService_ok (db : PgDatabase) (svc0 : ServiceState)
    (h : mkService db = .ok svc0) :
    _get_collections db = .ok svc0._collections ∧ svc0.conn = db := by
  unfold mkService at h
  cases hg : _get_collections db with
  | error e =>
    rw [hg] at h
    exact absurd h (by simp)
  | ok cols =>
    rw [hg] at h
    injection h with h2
    subst h2
    exact ⟨rfl, rfl⟩

/-- Length shape of a `_get_collections` result: with exactly one matching
table the cached list is the one-character list (the `rowcount == 1`
fetchone path), otherwise it is the table list itself. -/
theorem get_collections_length (db : PgDatabase) (cols : List String)
    (h : _get_collections db = .ok cols) :
    (db.tables.length = 1 ∧ cols.length = 1) ∨
    (db.tables.length ≠ 1 ∧ cols = db.tables) := by
  obtain ⟨tables⟩ := db
  cases tables with
  | nil =>
    right
    simp only [_get_collections] at h
    simp at h
    simp [h]
  | cons t ts =>
    cases ts with
    | nil =>
      left
      simp only [_get_collections] at h
      cases hp : pyStrIndex0 t with
      | error e =>
        rw [hp] at h
        exact absurd h (by simp [Except.map])
      | ok c =>
        rw [hp] at h
        simp [Except.map] at h
        simp [← h]
    | cons t2 ts2 =>
      right
      simp only [_get_collections] at h
      simp at h
      exact ⟨by simp, h.symm⟩

/-- Shape of a successful `new_collection`: it can only succeed when the
collection did not already exist, and the new state adds the table to the
live database while leaving the `_collections` cache untouched. -/
theorem new_collection_ok (svc : ServiceState) (n : String)
    (sch : List (String × String)) (r : String × ServiceState)
    (h : new_collection svc n sch = .ok r) :
    _collection_exists svc n = false ∧
    r.2 = { conn := { tables := svc.conn.tables ++ [n] },
            _collections := svc._collections } := by
  unfold new_collection at h
  by_cases hex : _collection_exists svc n = true
  · rw [if_pos hex] at h
    exact absurd h (by simp)
  · rw [if_neg hex] at h
    cases hm : sch.mapM (fun kv => make_column kv.1 kv.2) with
    | error e =>
      rw [hm] at h
      exact absurd h (by simp)
    | ok cols =>
      rw [hm] at h
      injection h with h2
      exact ⟨Bool.eq_false_iff.2 hex, by rw [← h2]⟩

/-- Shape of a successful `drop_collection`: it can only succeed when the
collection existed, and the new state removes the table from the live
database while leaving the `_collections` cache untouched. -/
theorem drop_collection_ok (svc : ServiceState) (n : String)
    (svc2 : ServiceState) (h : drop_collection svc n = .ok svc2) :
    _collection_exists svc n = true ∧
    svc2 = { conn := { tables := svc.conn.tables.erase n },
             _collections := svc._collections } := by
  unfold drop_collection at h
  by_cases hex : _collection_exists svc n = true
  · rw [if_neg (by simp [hex])] at h
    injection h with h2
    exact ⟨hex, h2.symm⟩
  · rw [if_pos (by simp [Bool.eq_false_iff.2 hex])] at h
    exact absurd h (by simp)

end RemoteGeoPostgreSQLService

namespace LocalGeoDBService

/-- The feature loop is insensitive to whether the evaluator raises or
returns a falsy value: raising on a feature is identical to evaluating to
`False` on it. -/
theorem findLoop_err_as_false (ev : List (String × PyScalar) → Except String Bool)
    (k : Int) : ∀ feats acc : List PyFeature,
    findLoop ev k feats acc =
      findLoop (fun env => .ok (exceptFalse (ev env))) k feats acc := by
  intro feats
  induction feats with
  | nil => intro acc; rfl
  | cons f rest ih =>
    intro acc
    simp only [findLoop]
    rw [show exceptFalse (Except.ok (exceptFalse (ev (featureLocals f)))) =
          exceptFalse (ev (featureLocals f)) from rfl]
    cases exceptFalse (ev (featureLocals f))
    · simpa using ih acc
    · show (if ((acc ++ [f]).length : Int) ≥ k then acc ++ [f]
            else findLoop ev k rest (acc ++ [f])) = _
      split
      · rfl
      · exact ih _

end LocalGeoDBService

/-! ## Claim theorems -/

open RemoteGeoPostgreSQLService LocalGeoDBService

/-- Splitting the spatial-function name out of the contains-predicate. -/
theorem stContainsSplit (w : String) :
    " ST_Contains(\x27" ++ w ++ "\x27, geometry)" =
      " ST_Contains" ++ ("(\x27" ++ w ++ "\x27, geometry)") := by
  simp only [String.append_assoc]
  conv_rhs => rw [← String.append_assoc]
  rfl

/-- Splitting the spatial-function name out of the within-predicate. -/
theorem stWithinSplit (w : String) :
    " ST_Within(\x27" ++ w ++ "\x27, geometry)" =
      " ST_Within" ++ ("(\x27" ++ w ++ "\x27, geometry)") := by
  simp only [String.append_assoc]
  conv_rhs => rw [← String.append_assoc]
  rfl

/-- C1, counterexample: with neither a textual query nor a bounding box
present, the translator returns the literal true predicate even for the
unknown output format "bogus", instead of raising the fatal input error the
claim requires for every format other than geojson and geopandas. -/
theorem C1_counterexample :
    alter_query none none "contains" "bogus" (some 4326) = Except.ok "TRUE" := rfl

/-- C1, amended: the translator combines the textual query and the
bounding-box predicate per the table — neither present gives the literal
true predicate; query only gives `properties->>query` (geojson) or the query
unchanged (geopandas); bbox only gives the bounding-box predicate alone; both
give the two joined with " and " under the same per-format rewriting — but
the fatal unknown-format error is raised only when a textual query is
present; with no query the format value is never inspected. -/
theorem C1_amended (q bq : String) (b : BBoxV) (bbox_mode fmt : String)
    (srid : Option Int) :
    (alter_query none none bbox_mode fmt srid = .ok "TRUE") ∧
    (alter_query (some "") none bbox_mode fmt srid = .ok "TRUE") ∧
    (q ≠ "" →
      alter_query (some q) none bbox_mode "geojson" srid =
        .ok ("properties->>" ++ q)) ∧
    (q ≠ "" →
      alter_query (some q) none bbox_mode "geopandas" srid = .ok q) ∧
    (q ≠ "" → fmt ≠ "geojson" → fmt ≠ "geopandas" →
      alter_query (some q) none bbox_mode fmt srid =
        .error ("format " ++ fmt ++ " not known")) ∧
    (bbox_query_of (some b) bbox_mode srid = .ok (some bq) →
      alter_query none (some b) bbox_mode fmt srid = .ok bq) ∧
    (q ≠ "" → bbox_query_of (some b) bbox_mode srid = .ok (some bq) →
      alter_query (some q) (some b) bbox_mode "geojson" srid =
        .ok ("properties->>" ++ q ++ " and " ++ bq)) ∧
    (q ≠ "" → bbox_query_of (some b) bbox_mode srid = .ok (some bq) →
      alter_query (some q) (some b) bbox_mode "geopandas" srid =
        .ok (q ++ " and " ++ bq)) ∧
    (q ≠ "" → fmt ≠ "geojson" → fmt ≠ "geopandas" →
      bbox_query_of (some b) bbox_mode srid = .ok (some bq) →
      alter_query (some q) (some b) bbox_mode fmt srid =
        .error ("format " ++ fmt ++ " not known")) := by
  refine ⟨rfl, rfl, ?_, ?_, ?_, ?_, ?_, ?_, ?_⟩
  · intro hq
    rw [alter_query_query_only q hq bbox_mode "geojson" srid]
    rfl
  · intro hq
    rw [alter_query_query_only q hq bbox_mode "geopandas" srid]
    rfl
  · intro hq h1 h2
    rw [alter_query_query_only q hq bbox_mode fmt srid, if_neg h1, if_neg h2]
  · intro hb
    exact alter_query_bbox_only b bbox_mode fmt srid bq hb
  · intro hq hb
    rw [alter_query_both q hq b bbox_mode "geojson" srid bq hb]
    rfl
  · intro hq hb
    rw [alter_query_both q hq b bbox_mode "geopandas" srid bq hb]
    rfl
  · intro hq h1 h2 hb
    rw [alter_query_both q hq b bbox_mode fmt srid bq hb, if_neg h1, if_neg h2]

/-- C1, witness: concrete instances of every row of the amended table. -/
theorem C1_amended_witness :
    alter_query (some "x") none "contains" "geojson" none =
      Except.ok "properties->>x" ∧
    alter_query (some "x") none "contains" "geopandas" none = Except.ok "x" ∧
    alter_query (some "x") none "contains" "csv" none =
      Except.error "format csv not known" ∧
    alter_query none (some ⟨0, 1, 2, 3⟩) "contains" "csv" none =
      Except.ok " ST_Contains(\x27 POLYGON((0 1,0 3,2 3,2 1,0 1))::geometry\x27, geometry)" ∧
    alter_query (some "x") (some ⟨0, 1, 2, 3⟩) "contains" "geopandas" none =
      Except.ok "x and  ST_Contains(\x27 POLYGON((0 1,0 3,2 3,2 1,0 1))::geometry\x27, geometry)" := by
  obtain ⟨_, _, h3, h4, h5, h6, h7, h8, h9⟩ :=
    C1_amended "x"
      " ST_Contains(\x27 POLYGON((0 1,0 3,2 3,2 1,0 1))::geometry\x27, geometry)"
      ⟨0, 1, 2, 3⟩ "contains" "csv" none
  exact ⟨h3 (by decide), h4 (by decide),
    h5 (by decide) (by decide) (by decide),
    h6 rfl, h8 (by decide) rfl⟩

/-- C2: for every bounding box the translator builds the WKT polygon with
the closed vertex ring (minx,miny),(minx,maxy),(maxx,maxy),(maxx,miny),
(minx,miny), optionally prefixed by the SRID tag; mode "contains" wraps it
in ST_Contains(region, geometry) and mode "within" in
ST_Within(region, geometry), the two predicates sharing their entire text
after the spatial-function name; any other mode raises the `ValueError`,
never silently defaulting. -/
theorem C2_bbox_predicate (b : BBoxV) (srid : Option Int) :
    (bbox_query_of (some b) "contains" srid =
      .ok (some (" ST_Contains(\x27" ++
        (" " ++ srid_str srid ++ "POLYGON((" ++
          toString b.minx ++ " " ++ toString b.miny ++ "," ++
          toString b.minx ++ " " ++ toString b.maxy ++ "," ++
          toString b.maxx ++ " " ++ toString b.maxy ++ "," ++
          toString b.maxx ++ " " ++ toString b.miny ++ "," ++
          toString b.minx ++ " " ++ toString b.miny ++ "))" ++ "::geometry") ++
        "\x27, geometry)"))) ∧
    (bbox_query_of (some b) "within" srid =
      .ok (some (" ST_Within(\x27" ++
        (" " ++ srid_str srid ++ "POLYGON((" ++
          toString b.minx ++ " " ++ toString b.miny ++ "," ++
          toString b.minx ++ " " ++ toString b.maxy ++ "," ++
          toString b.maxx ++ " " ++ toString b.maxy ++ "," ++
          toString b.maxx ++ " " ++ toString b.miny ++ "," ++
          toString b.minx ++ " " ++ toString b.miny ++ "))" ++ "::geometry") ++
        "\x27, geometry)"))) ∧
    (∃ tail : String,
      bbox_query_of (some b) "contains" srid =
        .ok (some (" ST_Contains" ++ tail)) ∧
      bbox_query_of (some b) "within" srid =
        .ok (some (" ST_Within" ++ tail))) ∧
    (∀ mode : String, mode = "contains" ∨ mode = "within" ∨
      bbox_query_of (some b) mode srid =
        .error ("bbox_mode " ++ mode ++ " unknown")) := by
  refine ⟨rfl, rfl, ⟨"(\x27" ++ wkt b srid ++ "\x27, geometry)", ?_, ?_⟩, ?_⟩
  · rw [← stContainsSplit (wkt b srid)]
    rfl
  · rw [← stWithinSplit (wkt b srid)]
    rfl
  · intro mode
    by_cases h1 : mode = "contains"
    · exact Or.inl h1
    · by_cases h2 : mode = "within"
      · exact Or.inr (Or.inl h2)
      · exact Or.inr (Or.inr (bbox_query_of_bad_mode b srid mode h1 h2))

/-- C3, code bug: the local backend checks `len(result_set) >= max_records`
after appending each match, so on a three-feature collection whose query
matches everything, `max_records = -1` (the documented "unbounded" default)
and `max_records = 0` both return just the first matching feature — the
claimed "at most k results for k = 0" and "negative means all matching
features" are both violated by the code. -/
theorem C3_local_limit_bug :
    find_features compileId evalTrue (some "True") none [fA, fB, fC] (-1) =
      Except.ok [fA] ∧
    find_features compileId evalTrue (some "True") none [fA, fB, fC] 0 =
      Except.ok [fA] := ⟨rfl, rfl⟩

/-- C4: per-feature evaluation failures in the local backend's feature loop
are exactly non-matches — replacing a raising evaluator by one returning
`False` on the raising inputs gives the same result, so the failing feature
is skipped and iteration continues — and whenever the query compiles the
whole call returns normally with the loop's result, never aborting. -/
theorem C4_eval_error_recovery :
    (∀ (ev : List (String × PyScalar) → Except String Bool) (k : Int)
        (feats acc : List PyFeature),
      findLoop ev k feats acc =
        findLoop (fun env => .ok (exceptFalse (ev env))) k feats acc) ∧
    (∀ (co : String → Except String String)
        (ev : String → List (String × PyScalar) → Except String Bool)
        (q cq : String) (feats : List PyFeature) (k : Int),
      co q = .ok cq →
      find_features co ev (some q) none feats k =
        .ok (findLoop (ev cq) k feats [])) := by
  refine ⟨findLoop_err_as_false, ?_⟩
  intro co ev q cq feats k h
  simp [find_features, bboxTruthy, pyCompile, h]

/-- C4, witness: an evaluator that raises on every feature makes the call
return an empty result set normally instead of aborting. -/
theorem C4_witness :
    find_features compileId evalErr (some "x > 0") none [fA] (-1) =
      Except.ok [] := by
  have h := C4_eval_error_recovery.2 compileId evalErr "x > 0" "x > 0" [fA] (-1) rfl
  rw [h]
  rfl

/-- C5, counterexample: the descriptor "floatint" contains "float" (with no
precision suffix), so the claim demands a plain numeric column, but the
mapper checks "int" first and yields an integer column. -/
theorem C5_counterexample :
    strHasSub "float" "floatint" = true ∧
    make_column "h" "floatint" = Except.ok "h integer" ∧
    make_column "h" "floatint" ≠ Except.ok "h numeric" :=
  ⟨rfl, rfl, fun h => absurd (Except.ok.inj h) (by decide)⟩

/-- C5, amended: descriptor "str" yields the bounded character-varying
column; any descriptor containing "int" yields the integer column; any
descriptor containing "float" but not "int" yields a numeric column with the
optional `:<precision>.<scale>` suffix parsed into `(precision,scale)`
(e.g. "float:8.2" gives numeric(8,2), bare "float" gives numeric); every
other descriptor raises the unsupported-type error.  The mapper is a pure
function of (name, descriptor), so equal descriptors always yield equal
declaration strings. -/
theorem C5_amended (name typ : String) :
    (make_column name "str" =
      .ok (name ++ " character varying(256) COLLATE pg_catalog.\"default\"")) ∧
    (strHasSub "int" typ = true → make_column name typ = .ok (name ++ " integer")) ∧
    (strHasSub "float" typ = true → strHasSub "int" typ = false →
      make_column name typ = .ok (name ++ " numeric" ++ float_prec typ)) ∧
    (make_column name "float:8.2" = .ok (name ++ " numeric(8,2)")) ∧
    (make_column name "float" = .ok (name ++ " numeric")) ∧
    (typ ≠ "str" → strHasSub "int" typ = false → strHasSub "float" typ = false →
      ∃ e, make_column name typ = .error e) := by
  refine ⟨make_column_str name, make_column_int name typ,
    make_column_float name typ, ?_, ?_, ?_⟩
  · rw [make_column_float name "float:8.2" (by decide) (by decide),
      String.append_assoc]
    rfl
  · rw [make_column_float name "float" (by decide) (by decide)]
    show Except.ok (name ++ " numeric" ++ "") = _
    rw [String.append_empty]
  · intro hs hi hf
    exact ⟨_, make_column_other name typ hs hi hf⟩

/-- C5, witness: every clause of the amended mapper table at concrete
descriptors. -/
theorem C5_amended_witness :
    make_column "h" "str" =
      Except.ok "h character varying(256) COLLATE pg_catalog.\"default\"" ∧
    make_column "h" "big_int" = Except.ok "h integer" ∧
    make_column "h" "float:10.3" = Except.ok "h numeric(10,3)" ∧
    make_column "h" "float:8.2" = Except.ok "h numeric(8,2)" ∧
    make_column "h" "float" = Except.ok "h numeric" ∧
    (∃ e, make_column "h" "bool" = Except.error e) := by
  obtain ⟨hA, hB, _, hD, hE, _⟩ := C5_amended "h" "big_int"
  obtain ⟨_, _, hC, _, _, _⟩ := C5_amended "h" "float:10.3"
  obtain ⟨_, _, _, _, _, hF⟩ := C5_amended "h" "bool"
  exact ⟨hA, hB (by decide), hC (by decide) (by decide), hD, hE,
    hF (by decide) (by decide) (by decide)⟩

/-- C6: on the remote backend, `add_feature` on a feature whose properties
lack the required `S_NAME` key raises `KeyError` while the INSERT text is
being built, before `self.query` is reached: the connection state (executed
and committed statements) is returned unchanged, so no SQL was issued. -/
theorem C6_missing_name (coll : String) (f : PyFeature) (conn : ConnState)
    (h : dictGet f.properties "S_NAME" = none) :
    add_feature coll f conn = (.error "KeyError: \x27S_NAME\x27", conn) := by
  have h1 := add_features_cons_keyerr coll f [] conn h
  unfold add_feature
  rw [h1]

/-- C6, witness: the concrete nameless feature, starting from a fresh
connection with nothing executed or committed. -/
theorem C6_missing_name_witness :
    add_feature "collection" fNoName ⟨[], []⟩ =
      (Except.error "KeyError: \x27S_NAME\x27", ⟨[], []⟩) :=
  C6_missing_name "collection" fNoName ⟨[], []⟩ rfl

/-- C7: the low-level `query` of the remote backend, for SQL text containing
the substring "SELECT", returns the single row when exactly one row matched
and the full row list otherwise, in both cases without committing; for any
other statement text it commits and returns the success flag. -/
theorem C7_query_dispatch (sql : String) (r : List String)
    (fetched : List (List String)) :
    (strHasSub "SELECT" sql = true → query sql [r] = (.row r, false)) ∧
    (strHasSub "SELECT" sql = true → fetched.length ≠ 1 →
      query sql fetched = (.rows fetched, false)) ∧
    (strHasSub "SELECT" sql = false → query sql fetched = (.success, true)) := by
  refine ⟨?_, ?_, ?_⟩
  · intro h
    simp [query, h]
  · intro h hlen
    unfold query
    rw [if_pos h]
    match fetched, hlen with
    | [], _ => rfl
    | [x], hlen => exact absurd rfl hlen
    | x :: y :: rest, _ => rfl
  · intro h
    simp [query, h]

/-- C7, witness: a one-row SELECT, a zero-row SELECT and an INSERT. -/
theorem C7_query_dispatch_witness :
    query "SELECT * FROM \"t\"" [["f1"]] = (.row ["f1"], false) ∧
    query "SELECT * FROM \"t\"" [] = (.rows [], false) ∧
    query "INSERT INTO t VALUES(1)" [] = (.success, true) := by
  obtain ⟨h1, h2, _⟩ := C7_query_dispatch "SELECT * FROM \"t\"" ["f1"] []
  obtain ⟨_, _, h3⟩ := C7_query_dispatch "INSERT INTO t VALUES(1)" [] []
  exact ⟨h1 (by decide), h2 (by decide) (by decide), h3 (by decide)⟩

set_option maxRecDepth 40000 in
/-- C8, counterexample: `add_features` on a well-named feature followed by a
nameless one raises, yet one INSERT statement has already been executed and
committed — the stored state is neither "every feature inserted" nor
"unchanged", so the operation is not atomic. -/
theorem C8_counterexample :
    (add_features "collection" [fA, fNoName] ⟨[], []⟩).1 =
      Except.error "KeyError: \x27S_NAME\x27" ∧
    (add_features "collection" [fA, fNoName] ⟨[], []⟩).2.executed.length = 1 ∧
    (add_features "collection" [fA, fNoName] ⟨[], []⟩).2.committed.length = 1 :=
  ⟨rfl, rfl, rfl⟩

/-- C8, amended: every fatal condition aborts the operation with an error
and no partial result value is reported to the caller; but `add_features` is
not atomic: it passes one INSERT per feature to `query` in order, and each
statement whose text lacks the substring "SELECT" is executed and committed
at once, so on a list of such well-named features it succeeds with exactly
one committed statement per feature; a nameless feature part-way through
raises `KeyError` and leaves exactly the prefix's state (its INSERTs
executed and committed); a feature whose interpolated INSERT text contains
"SELECT" makes `query` take the SELECT branch and raise at fetch, leaving
that statement executed but uncommitted on top of the prefix's state; in
every failure nothing after the offending feature is inserted. -/
theorem C8_amended (coll : String) (conn : ConnState)
    (fs good : List PyFeature) (bad fsel : PyFeature) (rest : List PyFeature)
    (nv : PyScalar) :
    ((∀ f ∈ fs, insert_ok coll f) →
      (add_features coll fs conn).1 = .ok "Features Added" ∧
      (add_features coll fs conn).2.executed.length =
        conn.executed.length + fs.length ∧
      (conn.committed = conn.executed →
        (add_features coll fs conn).2.committed =
          (add_features coll fs conn).2.executed)) ∧
    ((∀ f ∈ good, insert_ok coll f) →
      dictGet bad.properties "S_NAME" = none →
      add_features coll (good ++ bad :: rest) conn =
        (.error "KeyError: \x27S_NAME\x27", (add_features coll good conn).2)) ∧
    ((∀ f ∈ good, insert_ok coll f) →
      dictGet fsel.properties "S_NAME" = some nv →
      strHasSub "SELECT" (insert_text coll fsel nv) = true →
      add_features coll (good ++ fsel :: rest) conn =
        (.error "ProgrammingError: no results to fetch",
         ⟨(add_features coll good conn).2.executed ++ [insert_text coll fsel nv],
          (add_features coll good conn).2.committed⟩)) :=
  ⟨add_features_all_ok coll fs conn,
   add_features_keyerr_at coll good bad rest conn,
   add_features_selerr_at coll good fsel rest nv conn⟩

set_option maxRecDepth 40000 in
/-- C8, witness: the amended behavior on concrete feature lists — a clean
single insert, a nameless second feature, and a second feature whose
property value "SELECT 1" puts the substring into the INSERT text. -/
theorem C8_amended_witness :
    (add_features "collection" [fA] ⟨[], []⟩).1 = Except.ok "Features Added" ∧
    (add_features "collection" [fA] ⟨[], []⟩).2.executed.length = 1 ∧
    (add_features "collection" [fA] ⟨[], []⟩).2.committed =
      (add_features "collection" [fA] ⟨[], []⟩).2.executed ∧
    add_features "collection" ([fA] ++ fNoName :: []) ⟨[], []⟩ =
      (Except.error "KeyError: \x27S_NAME\x27",
       (add_features "collection" [fA] ⟨[], []⟩).2) ∧
    add_features "collection" ([fA] ++ fSel :: []) ⟨[], []⟩ =
      (Except.error "ProgrammingError: no results to fetch",
       ⟨(add_features "collection" [fA] ⟨[], []⟩).2.executed ++
          [insert_text "collection" fSel (.pStr "x")],
        (add_features "collection" [fA] ⟨[], []⟩).2.committed⟩) := by
  obtain ⟨w1, w2, w3⟩ :=
    C8_amended "collection" ⟨[], []⟩ [fA] [fA] fNoName fSel [] (.pStr "x")
  have hnamed : ∀ f ∈ [fA], insert_ok "collection" f := by
    intro f hf
    simp only [List.mem_singleton] at hf
    subst hf
    exact ⟨.pStr "a", rfl, rfl⟩
  exact ⟨(w1 hnamed).1, (w1 hnamed).2.1, (w1 hnamed).2.2 rfl,
    w2 hnamed rfl, w3 hnamed rfl rfl⟩

/-- C9: calling the local backend's `find_features` with its default
`query = None` raises the `TypeError` from `compile(None, ...)` — for every
compiler and evaluator oracle, every collection and every `max_records` —
instead of returning all features; the neither-present-gives-TRUE rule lives
only in the remote translator, which returns the literal true predicate for
every mode, format and SRID when query and bbox are both absent. -/
theorem C9_local_none_query :
    (∀ (co : String → Except String String)
        (ev : String → List (String × PyScalar) → Except String Bool)
        (feats : List PyFeature) (k : Int),
      find_features co ev none none feats k =
        .error "TypeError: compile() arg 1 must be a string, bytes or code object") ∧
    (∀ (bbox_mode fmt : String) (srid : Option Int),
      alter_query none none bbox_mode fmt srid = .ok "TRUE") :=
  ⟨fun _ _ _ _ => rfl, fun _ _ _ => rfl⟩

/-- C10: the remote backend's `_collections` cache is filled once at
construction with exactly what `_get_collections` reported against the live
database, and is left untouched by every successful `new_collection` and
`drop_collection`, while `_collection_exists` always consults the live
database; consequently, after a successful create or drop on a freshly
constructed service, re-reading the collections from the now-live database
can never reproduce the cached list — the property no longer reflects the
actual tables (and the created name is live per `_collection_exists`). -/
theorem C10_cache_frame :
    (∀ (db : PgDatabase) (svc0 : ServiceState),
      mkService db = .ok svc0 →
      _get_collections db = .ok svc0._collections ∧ svc0.conn = db) ∧
    (∀ (svc : ServiceState) (n : String) (sch : List (String × String))
        (r : String × ServiceState),
      new_collection svc n sch = .ok r → r.2._collections = svc._collections) ∧
    (∀ (svc : ServiceState) (n : String) (svc2 : ServiceState),
      drop_collection svc n = .ok svc2 → svc2._collections = svc._collections) ∧
    (∀ (svc : ServiceState) (n : String),
      _collection_exists svc n = svc.conn.tables.contains n) ∧
    (∀ (db : PgDatabase) (svc0 : ServiceState) (n : String)
        (sch : List (String × String)) (r : String × ServiceState),
      mkService db = .ok svc0 → new_collection svc0 n sch = .ok r →
      _collection_exists r.2 n = true ∧
      (∀ cols2, _get_collections r.2.conn = .ok cols2 →
        r.2._collections ≠ cols2)) ∧
    (∀ (db : PgDatabase) (svc0 : ServiceState) (n : String)
        (svc2 : ServiceState),
      mkService db = .ok svc0 → drop_collection svc0 n = .ok svc2 →
      ∀ cols2, _get_collections svc2.conn = .ok cols2 →
        svc2._collections ≠ cols2) := by
  refine ⟨mkService_ok, ?_, ?_, fun _ _ => rfl, ?_, ?_⟩
  · intro svc n sch r h
    rw [(new_collection_ok svc n sch r h).2]
  · intro svc n svc2 h
    rw [(drop_collection_ok svc n svc2 h).2]
  · intro db svc0 n sch r hmk hnew
    obtain ⟨hg0, hconn⟩ := mkService_ok db svc0 hmk
    obtain ⟨hex, hstate⟩ := new_collection_ok svc0 n sch r hnew
    constructor
    · rw [show _collection_exists r.2 n = r.2.conn.tables.contains n from rfl,
        hstate]
      simp
    · intro cols2 hg2 heq
      have hcols : r.2._collections = svc0._collections := by rw [hstate]
      have htab : r.2.conn.tables = db.tables ++ [n] := by rw [hstate, hconn]
      have hnewlen : r.2.conn.tables.length = db.tables.length + 1 := by
        rw [htab]
        simp
      rw [hcols] at heq
      have hlen := congrArg List.length heq
      rcases get_collections_length db svc0._collections hg0 with
        ⟨hd1, hc1⟩ | ⟨hd1, hc1⟩
      · rcases get_collections_length r.2.conn cols2 hg2 with
          ⟨hd2, hc2⟩ | ⟨hd2, hc2⟩
        · omega
        · have h2 := congrArg List.length hc2
          omega
      · have hl1 := congrArg List.length hc1
        rcases get_collections_length r.2.conn cols2 hg2 with
          ⟨hd2, hc2⟩ | ⟨hd2, hc2⟩
        · omega
        · have h2 := congrArg List.length hc2
          omega
  · intro db svc0 n svc2 hmk hdrop cols2 hg2 heq
    obtain ⟨hg0, hconn⟩ := mkService_ok db svc0 hmk
    obtain ⟨hex, hstate⟩ := drop_collection_ok svc0 n svc2 hdrop
    have hmem : n ∈ db.tables := by
      have hc : svc0.conn.tables.contains n = true := hex
      rw [hconn] at hc
      simpa using hc
    have htab : svc2.conn.tables = db.tables.erase n := by rw [hstate, hconn]
    have hle : (db.tables.erase n).length = db.tables.length - 1 :=
      List.length_erase_of_mem hmem
    have hpos : 0 < db.tables.length := List.length_pos_of_mem hmem
    have hdroplen : svc2.conn.tables.length = db.tables.length - 1 := by
      rw [htab]
      exact hle
    have hcols : svc2._collections = svc0._collections := by rw [hstate]
    rw [hcols] at heq
    have hlen := congrArg List.length heq
    rcases get_collections_length db svc0._collections hg0 with
      ⟨hd1, hc1⟩ | ⟨hd1, hc1⟩
    · rcases get_collections_length svc2.conn cols2 hg2 with
        ⟨hd2, hc2⟩ | ⟨hd2, hc2⟩
      · omega
      · have h2 := congrArg List.length hc2
        omega
    · have hl1 := congrArg List.length hc1
      rcases get_collections_length svc2.conn cols2 hg2 with
        ⟨hd2, hc2⟩ | ⟨hd2, hc2⟩
      · omega
      · have h2 := congrArg List.length hc2
        omega

/-- C10, witness: constructing over a two-table database, then creating
"t3" and dropping "table1"; after the drop the live database holds the
single table "table2", so the program's re-read would cache ["t"] — the
first character of the name, per query's rowcount-1 fetchone path — which
the untouched cache ["table1", "table2"] does not equal either. -/
theorem C10_cache_frame_witness :
    _get_collections ⟨["table1", "table2"]⟩ =
      .ok (⟨⟨["table1", "table2"]⟩, ["table1", "table2"]⟩ : ServiceState)._collections ∧
    ((⟨⟨["table1", "table2", "t3"]⟩, ["table1", "table2"]⟩ : ServiceState)._collections =
      (⟨⟨["table1", "table2"]⟩, ["table1", "table2"]⟩ : ServiceState)._collections) ∧
    ((⟨⟨["table2"]⟩, ["table1", "table2"]⟩ : ServiceState)._collections =
      (⟨⟨["table1", "table2"]⟩, ["table1", "table2"]⟩ : ServiceState)._collections) ∧
    _collection_exists
      (⟨⟨["table1", "table2", "t3"]⟩, ["table1", "table2"]⟩ : ServiceState) "t3" = true ∧
    (⟨⟨["table1", "table2", "t3"]⟩, ["table1", "table2"]⟩ : ServiceState)._collections ≠
      ["table1", "table2", "t3"] ∧
    (⟨⟨["table2"]⟩, ["table1", "table2"]⟩ : ServiceState)._collections ≠ ["t"] := by
  obtain ⟨c1, c2, c3, _, c5, c6⟩ := C10_cache_frame
  have hmk : mkService ⟨["table1", "table2"]⟩ =
      .ok (⟨⟨["table1", "table2"]⟩, ["table1", "table2"]⟩ : ServiceState) := rfl
  have hnew : new_collection
      (⟨⟨["table1", "table2"]⟩, ["table1", "table2"]⟩ : ServiceState) "t3"
      [("height", "float:8.2")] =
      .ok ("Collection created",
        (⟨⟨["table1", "table2", "t3"]⟩, ["table1", "table2"]⟩ : ServiceState)) := rfl
  have hdrop : drop_collection
      (⟨⟨["table1", "table2"]⟩, ["table1", "table2"]⟩ : ServiceState) "table1" =
      .ok (⟨⟨["table2"]⟩, ["table1", "table2"]⟩ : ServiceState) := rfl
  obtain ⟨c5a, c5b⟩ := c5 ⟨["table1", "table2"]⟩ _ "t3" [("height", "float:8.2")]
    ("Collection created",
      (⟨⟨["table1", "table2", "t3"]⟩, ["table1", "table2"]⟩ : ServiceState)) hmk hnew
  exact ⟨(c1 ⟨["table1", "table2"]⟩ _ hmk).1,
    c2 _ "t3" [("height", "float:8.2")]
      ("Collection created",
        (⟨⟨["table1", "table2", "t3"]⟩, ["table1", "table2"]⟩ : ServiceState)) hnew,
    c3 _ "table1" (⟨⟨["table2"]⟩, ["table1", "table2"]⟩ : ServiceState) hdrop,
    c5a, c5b ["table1", "table2", "t3"] rfl,
    c6 ⟨["table1", "table2"]⟩ _ "table1"
      (⟨⟨["table2"]⟩, ["table1", "table2"]⟩ : ServiceState) hmk hdrop ["t"] rfl⟩
